import Mathlib

/-!
Verification development for `grader.py` (a black-box test harness for
Python programs).  The Python class `TestCaseGrader` is embedded shallowly:

* the subprocess invocation is abstracted by a function
  `prog : String → ExecOutcome` mapping the stdin text fed to the target
  program to the observable outcome of `subprocess.run` (normal
  completion with stdout/stderr/returncode, `TimeoutExpired`, or any
  other exception carrying its `str(e)` text);
* the mutable object state (`self.code_file`, `self.timeout`,
  `self.results`) is threaded explicitly as a `TestCaseGrader` value;
* Python dictionaries with optional keys are structures with `Option`
  fields; `dict.get(k, d)` becomes `Option.getD`;
* `print` output is collected into a list of strings, one entry per
  `print` call; the one `ZeroDivisionError` opportunity (true division
  in the score line) is made explicit through `pydiv` in the `Except`
  monad;
* the filesystem seen by `load_tests_from_directory` is
  `Option (List FileEntry)`: `none` when the directory does not exist,
  otherwise the directory entries in enumeration order.  Reading a
  file's text is modelled as total (its `content` field); glob patterns
  support the `*` and `?` wildcards used by the repository.
-/

namespace Grader

/-- One result dictionary as built by `run_test_case`.  The success
branch stores a `stderr` key and no `error` key; the timeout and
exception branches store an `error` key and no `stderr` key; both
conventions are represented by `Option` fields (`none` = key absent or
`None`). -/
structure TestResult where
  test_name : String
  passed : Bool
  input : String
  expected_output : String
  actual_output : Option String
  stderr : Option String
  error : Option String
  return_code : Option Int
deriving DecidableEq, Repr

/-- The state of a `TestCaseGrader` object: constructor arguments plus
the accumulated `self.results` list. -/
structure TestCaseGrader where
  code_file : String
  timeout : Nat
  results : List TestResult
deriving DecidableEq, Repr

/-- Observable outcome of one `subprocess.run` call: normal completion
(captured stdout, captured stderr, exit status), `TimeoutExpired`, or
any other exception with its `str(e)` text. -/
inductive ExecOutcome where
  | completed (stdout : String) (stderr : String) (returncode : Int)
  | timedOut
  | failed (msg : String)
deriving DecidableEq, Repr

/-- ASCII whitespace stripped by Python `str.strip()`
(space, tab, newline, carriage return, vertical tab, form feed). -/
def isPyWs (c : Char) : Bool :=
  c == ' ' || c == '\t' || c == '\n' || c == '\r' || c == '\x0b' || c == '\x0c'

/-- Python `s.strip()`: remove leading and trailing whitespace. -/
def pyStrip (s : String) : String :=
  String.mk (((s.data.dropWhile isPyWs).reverse.dropWhile isPyWs).reverse)

/-- Python `v or d` for `v : Optional[str]`: both `None` and the falsy
empty string select the default. -/
def pyOrStr (v : Option String) (d : String) : String :=
  match v with
  | none => d
  | some s => if s == "" then d else s

/-- Model of `run_test_case` (grader.py lines 22-87).  Builds the result
dictionary for one execution, appends it to `self.results` and returns
it; the new object state is returned alongside.  `prog input_data`
stands for the `subprocess.run([sys.executable, self.code_file], ...)`
call. -/
def run_test_case (prog : String → ExecOutcome) (g : TestCaseGrader)
    (input_data : String) (expected_output : String) (test_name : Option String) :
    TestResult × TestCaseGrader :=
  let nm := pyOrStr test_name ("Test " ++ toString (g.results.length + 1))
  match prog input_data with
  | .completed out err rc =>
    let actual := pyStrip out
    let expected := pyStrip expected_output
    let r : TestResult :=
      { test_name := nm
        passed := actual == expected
        input := input_data
        expected_output := expected
        actual_output := some actual
        stderr := if err == "" then none else some err
        error := none
        return_code := some rc }
    (r, { g with results := g.results ++ [r] })
  | .timedOut =>
    let r : TestResult :=
      { test_name := nm
        passed := false
        input := input_data
        expected_output := expected_output
        actual_output := none
        stderr := none
        error := some ("Timeout: Execution exceeded " ++ toString g.timeout ++ " seconds")
        return_code := none }
    (r, { g with results := g.results ++ [r] })
  | .failed msg =>
    let r : TestResult :=
      { test_name := nm
        passed := false
        input := input_data
        expected_output := expected_output
        actual_output := none
        stderr := none
        error := some msg
        return_code := none }
    (r, { g with results := g.results ++ [r] })

/-- One element of the `test_cases` list taken by `run_multiple_tests`:
a dictionary with keys `input`, `expected_output` (read with default
`''`) and optional `name`. -/
structure TestCaseDict where
  input : Option String
  expected_output : Option String
  name : Option String
deriving DecidableEq, Repr

/-- The `for test_case in test_cases` loop body of `run_multiple_tests`
(grader.py lines 100-105). -/
def runLoop (prog : String → ExecOutcome) (g : TestCaseGrader) :
    List TestCaseDict → TestCaseGrader
  | [] => g
  | tc :: rest =>
    runLoop prog
      (run_test_case prog g (tc.input.getD "") (tc.expected_output.getD "") tc.name).2 rest

/-- Model of `run_multiple_tests` (grader.py lines 89-106): reset `self.results`
to the empty list, run every test case in order, return `self.results`. -/
def run_multiple_tests (prog : String → ExecOutcome) (g : TestCaseGrader)
    (test_cases : List TestCaseDict) : List TestResult × TestCaseGrader :=
  let gf := runLoop prog { g with results := [] } test_cases
  (gf.results, gf)

/-- Model of `get_score` (grader.py lines 140-150). -/
def get_score (g : TestCaseGrader) : Nat × Nat :=
  if g.results.isEmpty then (0, 0)
  else (g.results.countP (fun r => r.passed), g.results.length)

/-- Python true division `a / b`, which raises `ZeroDivisionError` when
`b = 0`; values are exact rationals. -/
def pydiv (a b : ℚ) : Except String ℚ :=
  if b = 0 then .error "ZeroDivisionError: division by zero" else .ok (a / b)

/-- Rendering of the `:.1f` format applied to the percentage (one digit
after the decimal point; the exact digit string is an abstraction of
float formatting and no claim depends on it). -/
def fmt1 (q : ℚ) : String :=
  let t : Int := round (q * 10)
  toString (t / 10) ++ "." ++ toString (t % 10)

/-- Python `repr` of a value that is a string or `None`; for strings
the quoting follows Lean's escaping, an abstraction of Python's. -/
def pyReprOpt (v : Option String) : String :=
  match v with
  | none => "None"
  | some s => reprStr s

/-- The `"="*60` separator line. -/
def bar60 : String := String.mk (List.replicate 60 '=')

/-- The `print` calls issued for one result inside the summary loop
(grader.py lines 122-134): header line always; detail lines only for a
non-passing result; `error` and `stderr` lines only when those values
are truthy. -/
def resultLines (r : TestResult) : List String :=
  let status := if r.passed then "✓ PASS" else "✗ FAIL"
  let head := "\n" ++ status ++ ": " ++ r.test_name
  if r.passed then [head]
  else
    [head,
     "  Input: " ++ reprStr r.input,
     "  Expected: " ++ reprStr r.expected_output,
     "  Got: " ++ pyReprOpt r.actual_output]
    ++ (match r.error with
        | some e => if e == "" then [] else ["  Error: " ++ e]
        | none => [])
    ++ (match r.stderr with
        | some s => if s == "" then [] else ["  Stderr: " ++ s]
        | none => [])

/-- Model of `print_summary` (grader.py lines 108-138): one list entry per
`print` call; `.error` would signal an uncaught `ZeroDivisionError`
from the score line. -/
def print_summary (g : TestCaseGrader) : Except String (List String) :=
  if g.results.isEmpty then .ok ["No tests have been run yet."]
  else
    let total := g.results.length
    let passed := g.results.countP (fun r => r.passed)
    do
      let pct ← pydiv ((100 * passed : Nat) : ℚ) ((total : Nat) : ℚ)
      .ok (["\n" ++ bar60,
            "TEST SUMMARY: " ++ toString passed ++ "/" ++ toString total ++ " tests passed",
            bar60]
           ++ (g.results.map resultLines).flatten
           ++ ["\n" ++ bar60,
               "Score: " ++ toString passed ++ "/" ++ toString total
                 ++ " (" ++ fmt1 pct ++ "%)",
               bar60 ++ "\n"])

/-- One directory entry: filename and text content.  Reading is
modelled as total; the directory listing order is the (arbitrary)
filesystem enumeration order seen by `Path.glob`. -/
structure FileEntry where
  name : String
  content : String
deriving DecidableEq, Repr

/-- Index of the last `.` in a character list (CPython's
`name.rfind(chr(46))`), or `none`. -/
def rfindDot : List Char → Option Nat
  | [] => none
  | c :: cs =>
    match rfindDot cs with
    | some i => some (i + 1)
    | none => if c == '.' then some 0 else none

/-- Python `PurePath.suffix` on a single-component path: the substring from
the last dot, provided that dot is neither the first nor the last
character; otherwise the empty string. -/
def pathSuffix (n : String) : String :=
  match rfindDot n.data with
  | some i => if 0 < i ∧ i + 1 < n.data.length then String.mk (n.data.drop i) else ""
  | none => ""

/-- Python `PurePath.stem` on a single-component path: the filename with
`pathSuffix` removed. -/
def pathStem (n : String) : String :=
  match rfindDot n.data with
  | some i => if 0 < i ∧ i + 1 < n.data.length then String.mk (n.data.take i) else n

  | none => n

/-- Python `PurePath.with_suffix` on a single-component path. -/
def withSuffix (n ext : String) : String := pathStem n ++ ext

/-- Glob / fnmatch pattern matching over a filename, for the `*` and
`?` wildcards (the subset of the pattern language the repository
exercises); `*` matches any character sequence, `?` one character,
everything else literally. -/
def globMatch : List Char → List Char → Bool
  | [], cs => cs.isEmpty
  | '*' :: ps, cs => (List.range (cs.length + 1)).any (fun k => globMatch ps (cs.drop k))
  | '?' :: ps, cs =>
    match cs with
    | [] => false
    | _ :: cs' => globMatch ps cs'
  | p :: ps, cs =>
    match cs with
    | [] => false
    | c :: cs' => (p == c) && globMatch ps cs'

/-- Lexicographic comparison of code-point sequences: Python's string
`<=`, which drives both string and `Path` ordering. -/
def charListLe : List Char → List Char → Bool
  | [], _ => true
  | _ :: _, [] => false
  | a :: as, b :: bs => if a = b then charListLe as bs else decide (a < b)

/-- Python `a <= b` on strings. -/
def pyStrLe (a b : String) : Bool := charListLe a.data b.data

/-- Ordering of directory entries by filename, the comparison
`sorted()` applies to the `Path` objects returned by `glob` (all paths
share the directory prefix, so they compare by filename). -/
def feLe (a b : FileEntry) : Prop := pyStrLe a.name b.name = true

instance : DecidableRel feLe := fun a b =>
  inferInstanceAs (Decidable (pyStrLe a.name b.name = true))

/-- Model of `sorted(test_dir_path.glob(input_pattern))` (grader.py line 180):
the entries matching the input pattern, sorted by filename. -/
def sortedInputFiles (files : List FileEntry) (input_pattern : String) : List FileEntry :=
  (files.filter (fun f => globMatch input_pattern.data f.name.data)).insertionSort feLe

/-- Output-file selection for one input file (grader.py lines 187-213).
Method 1: if the output pattern has a suffix, look for the input
filename with that suffix substituted.  Method 2: scan the entries
matching the output pattern for the first one whose stem equals the
input file's stem. -/
def findOutput (files : List FileEntry) (output_pattern : String) (inf : FileEntry) :
    Option FileEntry :=
  let ext_output := pathSuffix output_pattern
  let m1 :=
    if ext_output ≠ "" then
      files.find? (fun f => f.name == withSuffix inf.name ext_output)
    else none
  match m1 with
  | some f => some f
  | none =>
    (files.filter (fun f => globMatch output_pattern.data f.name.data)).find?
      (fun f => pathStem f.name == pathStem inf.name)

/-- The `for input_file in input_files` loop of
`load_tests_from_directory` (grader.py lines 187-233): each input file
either contributes a test-case dictionary (stem as name, file contents
as input and expected output) or, when no matching output file exists,
a skip warning. -/
def loadLoop (files : List FileEntry) (output_pattern : String) :
    List FileEntry → List TestCaseDict × List String
  | [] => ([], [])
  | inf :: rest =>
    let r := loadLoop files output_pattern rest
    match findOutput files output_pattern inf with
    | some outf =>
      ({ name := some (pathStem inf.name)
         input := some inf.content
         expected_output := some outf.content } :: r.1, r.2)
    | none =>
      (r.1, ("Warning: No matching output file found for " ++ inf.name ++ ", skipping...") :: r.2)

/-- Model of `load_tests_from_directory` (grader.py lines 152-235).  `dir` is
`none` when the directory does not exist.  `FileNotFoundError` and
`ValueError` become `.error`; otherwise the loaded test cases are
returned together with the warnings printed for skipped pairs. -/
def load_tests_from_directory (dir : Option (List FileEntry)) (test_dir : String)
    (input_pattern : String) (output_pattern : String) :
    Except String (List TestCaseDict × List String) :=
  match dir with
  | none => .error ("Test directory not found: " ++ test_dir)
  | some files =>
    let input_files := sortedInputFiles files input_pattern
    if input_files.isEmpty then
      .error ("No input files found matching pattern \x27" ++ input_pattern
              ++ "\x27 in " ++ test_dir)
    else
      .ok (loadLoop files output_pattern input_files)

/-! ### Basic facts about `run_test_case` and the batch loop -/

theorem run_test_case_snd (prog : String → ExecOutcome) (g : TestCaseGrader)
    (i e : String) (nm : Option String) :
    (run_test_case prog g i e nm).2 =
      { g with results := g.results ++ [(run_test_case prog g i e nm).1] } := by
  cases h : prog i <;> simp [run_test_case, h]

theorem run_test_case_input (prog : String → ExecOutcome) (g : TestCaseGrader)
    (i e : String) (nm : Option String) :
    ((run_test_case prog g i e nm).1).input = i := by
  cases h : prog i <;> simp [run_test_case, h]

theorem run_test_case_name (prog : String → ExecOutcome) (g : TestCaseGrader)
    (i e : String) (nm : Option String) :
    ((run_test_case prog g i e nm).1).test_name
      = pyOrStr nm ("Test " ++ toString (g.results.length + 1)) := by
  cases h : prog i <;> simp [run_test_case, h]

theorem runLoop_length (prog : String → ExecOutcome) (cs : List TestCaseDict) :
    ∀ g : TestCaseGrader,
      (runLoop prog g cs).results.length = g.results.length + cs.length := by
  induction cs with
  | nil => intro g; simp [runLoop]
  | cons tc rest ih =>
    intro g
    rw [runLoop, ih, run_test_case_snd]
    simp
    omega

theorem runLoop_inputs (prog : String → ExecOutcome) (cs : List TestCaseDict) :
    ∀ g : TestCaseGrader,
      (runLoop prog g cs).results.map (fun r => r.input)
        = g.results.map (fun r => r.input) ++ cs.map (fun c => c.input.getD "") := by
  induction cs with
  | nil => intro g; simp [runLoop]
  | cons tc rest ih =>
    intro g
    rw [runLoop, ih, run_test_case_snd]
    simp [run_test_case_input]

/-! ### Claim theorems -/

/-- C1: on normal subprocess termination the recorded outcome passes
iff the stripped captured stdout equals the stripped expected output
(character-exact, so internal whitespace differences fail), the real
exit status is recorded in `return_code`, and the exit status has no
influence on `passed`. -/
theorem claim_C1_trim_comparison (out err : String) (rc : Int)
    (g : TestCaseGrader) (i e : String) (nm : Option String) :
    (((run_test_case (fun _ => ExecOutcome.completed out err rc) g i e nm).1).passed = true
        ↔ pyStrip out = pyStrip e)
    ∧ ((run_test_case (fun _ => ExecOutcome.completed out err rc) g i e nm).1).return_code
        = some rc
    ∧ (run_test_case (fun _ => ExecOutcome.completed out err rc) g i e nm).2.results
        = g.results ++ [(run_test_case (fun _ => ExecOutcome.completed out err rc) g i e nm).1] := by
  refine ⟨?_, ?_, ?_⟩ <;> simp [run_test_case]

/-- C3: on `TimeoutExpired` the recorded outcome has `passed = false`,
no actual output, no return code, and a diagnostic naming the
configured timeout value; the outcome is appended to the session. -/
theorem claim_C3_timeout_outcome (g : TestCaseGrader) (i e : String) (nm : Option String) :
    ((run_test_case (fun _ => ExecOutcome.timedOut) g i e nm).1).passed = false
    ∧ ((run_test_case (fun _ => ExecOutcome.timedOut) g i e nm).1).actual_output = none
    ∧ ((run_test_case (fun _ => ExecOutcome.timedOut) g i e nm).1).return_code = none
    ∧ ((run_test_case (fun _ => ExecOutcome.timedOut) g i e nm).1).error
        = some ("Timeout: Execution exceeded " ++ toString g.timeout ++ " seconds")
    ∧ (run_test_case (fun _ => ExecOutcome.timedOut) g i e nm).2.results
        = g.results ++ [(run_test_case (fun _ => ExecOutcome.timedOut) g i e nm).1] := by
  refine ⟨?_, ?_, ?_, ?_, ?_⟩ <;> simp [run_test_case]

/-- C4 counterexample: in the timeout branch the stored
`expected_output` is the raw value `"  3  "`, which stripping would
change, so not every branch stores the trimmed expected output. -/
theorem claim_C4_counterexample :
    ((run_test_case (fun _ => ExecOutcome.timedOut) ⟨"dp.py", 5, []⟩
        "1 2" "  3  " none).1).expected_output = "  3  "
    ∧ pyStrip "  3  " ≠ "  3  " := by
  exact ⟨rfl, by decide⟩

/-- C4 amended: only the normal-termination branch stores
`expected_output` stripped; the timeout and execution-error branches
store the raw, untrimmed value. -/
theorem claim_C4_amended (g : TestCaseGrader) (i e : String) (nm : Option String)
    (out err : String) (rc : Int) (msg : String) :
    ((run_test_case (fun _ => ExecOutcome.completed out err rc) g i e nm).1).expected_output
        = pyStrip e
    ∧ ((run_test_case (fun _ => ExecOutcome.timedOut) g i e nm).1).expected_output = e
    ∧ ((run_test_case (fun _ => ExecOutcome.failed msg) g i e nm).1).expected_output = e := by
  refine ⟨?_, ?_, ?_⟩ <;> simp [run_test_case]

/-- C5: any non-timeout launch/runtime failure is captured as data:
the recorded outcome has `passed = false`, carries the failure text as
its diagnostic, has no actual output and no return code, is appended
to the session, and every batch still produces one outcome per test
case no matter what the executions do. -/
theorem claim_C5_execution_error (g : TestCaseGrader) (i e : String) (nm : Option String)
    (msg : String) :
    ((run_test_case (fun _ => ExecOutcome.failed msg) g i e nm).1).passed = false
    ∧ ((run_test_case (fun _ => ExecOutcome.failed msg) g i e nm).1).error = some msg
    ∧ ((run_test_case (fun _ => ExecOutcome.failed msg) g i e nm).1).actual_output = none
    ∧ ((run_test_case (fun _ => ExecOutcome.failed msg) g i e nm).1).return_code = none
    ∧ (run_test_case (fun _ => ExecOutcome.failed msg) g i e nm).2.results
        = g.results ++ [(run_test_case (fun _ => ExecOutcome.failed msg) g i e nm).1]
    ∧ (∀ (prog : String → ExecOutcome) (cases : List TestCaseDict),
        ((run_multiple_tests prog g cases).2).results.length = cases.length) := by
  refine ⟨?_, ?_, ?_, ?_, ?_, ?_⟩
  · simp [run_test_case]
  · simp [run_test_case]
  · simp [run_test_case]
  · simp [run_test_case]
  · simp [run_test_case]
  · intro prog cases
    simp [run_multiple_tests, runLoop_length]

/-- C9: a test case whose name is the falsy empty string is treated as
unnamed, in every branch: the recorded `test_name` is the positional
default, which is never the empty string. -/
theorem claim_C9_empty_name_defaults (prog : String → ExecOutcome) (g : TestCaseGrader)
    (i e : String) :
    ((run_test_case prog g i e (some "")).1).test_name
        = "Test " ++ toString (g.results.length + 1)
    ∧ ((run_test_case prog g i e (some "")).1).test_name ≠ "" := by
  have h1 : ((run_test_case prog g i e (some "")).1).test_name
      = "Test " ++ toString (g.results.length + 1) := by
    rw [run_test_case_name]; simp [pyOrStr]
  refine ⟨h1, ?_⟩
  rw [h1]
  intro hcontra
  have hlen := congrArg String.length hcontra
  rw [String.length_append] at hlen
  have h5 : ("Test " : String).length = 5 := rfl
  have h0 : ("" : String).length = 0 := rfl
  rw [h5, h0] at hlen
  omega

/-- C2: a batch first resets the session's outcome list, then produces
exactly one outcome per test case in input order (witnessed by the
`input` field copied from each test case), and returns the session's
outcome list. -/
theorem claim_C2_batch_order (prog : String → ExecOutcome) (g : TestCaseGrader)
    (cases : List TestCaseDict) :
    ((run_multiple_tests prog g cases).2).results.length = cases.length
    ∧ ((run_multiple_tests prog g cases).2).results.map (fun r => r.input)
        = cases.map (fun c => c.input.getD "")
    ∧ (∀ r₀ : List TestResult,
        run_multiple_tests prog { g with results := r₀ } cases
          = run_multiple_tests prog g cases)
    ∧ (run_multiple_tests prog g cases).1 = ((run_multiple_tests prog g cases).2).results := by
  refine ⟨?_, ?_, ?_, ?_⟩
  · simp [run_multiple_tests, runLoop_length]
  · simp [run_multiple_tests, runLoop_inputs]
  · intro r₀; rfl
  · rfl

/-- C6 counterexample: with zero outcomes recorded, `print_summary`
prints the fixed line `"No tests have been run yet."`, which does not
contain `"0/0"`, so the empty batch is not reported as `0/0`. -/
theorem claim_C6_counterexample :
    print_summary ⟨"dp.py", 5, []⟩ = .ok ["No tests have been run yet."]
    ∧ ¬ (("0/0").data <:+: ("No tests have been run yet.").data) := by
  exact ⟨rfl, by decide⟩

/-- C6 amended: with zero outcomes `get_score` returns `(0, 0)` without
raising and `print_summary` returns early with the message that no
tests have been run; `print_summary` never raises `ZeroDivisionError`
on any session state. -/
theorem claim_C6_amended (cf : String) (t : Nat) :
    get_score ⟨cf, t, []⟩ = (0, 0)
    ∧ print_summary ⟨cf, t, []⟩ = .ok ["No tests have been run yet."]
    ∧ (∀ g : TestCaseGrader, (print_summary g).isOk = true) := by
  refine ⟨rfl, rfl, ?_⟩
  intro g
  by_cases h : g.results.isEmpty
  · simp [print_summary, h, Except.isOk, Except.toBool]
  · have hne : g.results ≠ [] := by simpa [List.isEmpty_iff] using h
    have hlen : g.results.length ≠ 0 := by simpa using hne
    have hq : ((g.results.length : Nat) : ℚ) ≠ 0 := by exact_mod_cast hlen
    simp [print_summary, h, pydiv, hq, Except.isOk, Except.toBool, Bind.bind, Except.bind]

theorem runLoop_default_names (prog : String → ExecOutcome) :
    ∀ (cs : List TestCaseDict) (g : TestCaseGrader), (∀ c ∈ cs, c.name = none) →
      (runLoop prog g cs).results.map (fun r => r.test_name)
        = g.results.map (fun r => r.test_name)
          ++ (List.range cs.length).map
              (fun j => "Test " ++ toString (g.results.length + j + 1)) := by
  intro cs
  induction cs with
  | nil => intro g _; simp [runLoop]
  | cons tc rest ih =>
    intro g h
    have hname : tc.name = none := h tc (by simp)
    have hrest : ∀ c ∈ rest, c.name = none := fun c hc => h c (by simp [hc])
    rw [runLoop, ih _ hrest, run_test_case_snd]
    simp only [List.map_append, List.map_cons, List.map_nil,
      List.length_append, List.length_cons, List.length_nil, List.append_assoc,
      List.singleton_append, List.range_succ_eq_map, List.map_map]
    rw [run_test_case_name, hname]
    simp only [pyOrStr]
    refine congrArg (fun t => g.results.map (fun r => r.test_name) ++ t) ?_
    refine List.cons_eq_cons.mpr ⟨?_, ?_⟩
    · refine congrArg (fun n => "Test " ++ toString n) ?_
      omega
    · refine List.map_congr_left ?_
      intro a _
      refine congrArg (fun n => "Test " ++ toString n) ?_
      simp [Function.comp]
      omega

/-- C7: an unnamed test case receives the stateful default name
`"Test " ++ toString (number of outcomes already recorded + 1)`,
computed at call time in every branch of `run_test_case`; through a
fresh batch this makes the k-th recorded outcome's default name the
1-based position `k + 1`; and with direct single calls the
position-dependent default can duplicate a name already recorded (an
explicitly named `Test 2` followed by an unnamed call). -/
theorem claim_C7_default_naming :
    (∀ (prog : String → ExecOutcome) (g : TestCaseGrader) (i e : String),
        ((run_test_case prog g i e none).1).test_name
          = "Test " ++ toString (g.results.length + 1))
    ∧ (∀ (prog : String → ExecOutcome) (g : TestCaseGrader) (cases : List TestCaseDict),
        (∀ c ∈ cases, c.name = none) →
          ((run_multiple_tests prog g cases).2).results.map (fun r => r.test_name)
            = (List.range cases.length).map (fun k => "Test " ++ toString (k + 1)))
    ∧ ((run_test_case (fun _ => ExecOutcome.timedOut)
          ((run_test_case (fun _ => ExecOutcome.timedOut) ⟨"dp.py", 5, []⟩
              "x" "y" (some "Test 2")).2) "x" "y" none).1).test_name
        = ((run_test_case (fun _ => ExecOutcome.timedOut) ⟨"dp.py", 5, []⟩
              "x" "y" (some "Test 2")).1).test_name := by
  refine ⟨?_, ?_, by decide⟩
  · intro prog g i e
    rw [run_test_case_name]
    simp [pyOrStr]
  · intro prog g cases h
    have := runLoop_default_names prog cases { g with results := [] } h
    simp only [run_multiple_tests]
    rw [this]
    simp only [List.map_nil, List.length_nil, List.nil_append]
    refine List.map_congr_left ?_
    intro a _
    refine congrArg (fun n => "Test " ++ toString n) ?_
    omega

/-- C7 witness: a fresh two-case unnamed batch records the default
names `Test 1`, `Test 2`. -/
theorem claim_C7_default_naming_witness :
    (∀ c ∈ ([⟨some "1 2", some "3", none⟩, ⟨some "2 2", some "5", none⟩] : List TestCaseDict),
        c.name = none)
    ∧ ((run_multiple_tests (fun _ => ExecOutcome.completed "3" "" 0) ⟨"dp.py", 5, []⟩
          [⟨some "1 2", some "3", none⟩, ⟨some "2 2", some "5", none⟩]).2).results.map
            (fun r => r.test_name)
        = (List.range 2).map (fun k => "Test " ++ toString (k + 1)) :=
  ⟨by decide, claim_C7_default_naming.2.1 (fun _ => ExecOutcome.completed "3" "" 0)
    ⟨"dp.py", 5, []⟩ [⟨some "1 2", some "3", none⟩, ⟨some "2 2", some "5", none⟩] (by decide)⟩

/-! ### Facts about test discovery -/

theorem charListLe_total : ∀ as bs, charListLe as bs = true ∨ charListLe bs as = true := by
  intro as
  induction as with
  | nil => intro bs; left; rfl
  | cons a as ih =>
    intro bs
    cases bs with
    | nil => right; rfl
    | cons b bs =>
      by_cases hab : a = b
      · subst hab
        rcases ih bs with h | h
        · left; simp [charListLe, h]
        · right; simp [charListLe, h]
      · rcases lt_trichotomy a b with h | h | h
        · left; simp [charListLe, hab, h]
        · exact absurd h hab
        · right
          have hba : b ≠ a := fun hc => hab hc.symm
          simp [charListLe, hba, h]

theorem charListLe_trans :
    ∀ as bs cs, charListLe as bs = true → charListLe bs cs = true →
      charListLe as cs = true := by
  intro as
  induction as with
  | nil => intro bs cs _ _; rfl
  | cons a as ih =>
    intro bs cs h1 h2
    cases bs with
    | nil => simp [charListLe] at h1
    | cons b bs =>
      cases cs with
      | nil => simp [charListLe] at h2
      | cons c cs =>
        by_cases hab : a = b <;> by_cases hbc : b = c
        · subst hab; subst hbc
          simp only [charListLe, if_pos rfl] at h1 h2 ⊢
          exact ih _ _ h1 h2
        · subst hab
          simp only [charListLe, if_neg hbc, decide_eq_true_eq] at h2
          simp only [charListLe, if_neg hbc, decide_eq_true_eq]
          exact h2
        · subst hbc
          simp only [charListLe, if_neg hab, decide_eq_true_eq] at h1
          simp only [charListLe, if_neg hab, decide_eq_true_eq]
          exact h1
        · simp only [charListLe, if_neg hab, decide_eq_true_eq] at h1
          simp only [charListLe, if_neg hbc, decide_eq_true_eq] at h2
          have hac : a < c := lt_trans h1 h2
          simp only [charListLe, if_neg (ne_of_lt hac), decide_eq_true_eq]
          exact hac

theorem charListLe_antisymm :
    ∀ as bs, charListLe as bs = true → charListLe bs as = true → as = bs := by
  intro as
  induction as with
  | nil =>
    intro bs _ h2
    cases bs with
    | nil => rfl
    | cons b bs => simp [charListLe] at h2
  | cons a as ih =>
    intro bs h1 h2
    cases bs with
    | nil => simp [charListLe] at h1
    | cons b bs =>
      by_cases hab : a = b
      · subst hab
        simp only [charListLe, if_pos rfl] at h1 h2
        rw [ih _ h1 h2]
      · have hba : b ≠ a := fun hc => hab hc.symm
        simp only [charListLe, if_neg hab, decide_eq_true_eq] at h1
        simp only [charListLe, if_neg hba, decide_eq_true_eq] at h2
        exact absurd (lt_trans h1 h2) (lt_irrefl a)

instance : IsTotal FileEntry feLe :=
  ⟨fun a b => charListLe_total a.name.data b.name.data⟩

instance : IsTrans FileEntry feLe :=
  ⟨fun a b c h1 h2 => charListLe_trans a.name.data b.name.data c.name.data h1 h2⟩

instance : IsAntisymm String (fun a b : String => pyStrLe a b = true) :=
  ⟨fun a b h1 h2 => by
    have hd := charListLe_antisymm a.data b.data h1 h2
    cases a
    cases b
    exact congrArg String.mk hd⟩

theorem loadLoop_partition (files : List FileEntry) (op : String) :
    ∀ l : List FileEntry,
      ((loadLoop files op l).1).length + ((loadLoop files op l).2).length = l.length := by
  intro l
  induction l with
  | nil => simp [loadLoop]
  | cons inf rest ih =>
    rw [loadLoop]
    cases hf : findOutput files op inf <;> simp [hf] <;> omega

theorem loadLoop_names (files : List FileEntry) (op : String) :
    ∀ l : List FileEntry,
      ((loadLoop files op l).1).map (fun c => c.name)
        = (l.filter (fun f => (findOutput files op f).isSome)).map
            (fun f => some (pathStem f.name)) := by
  intro l
  induction l with
  | nil => simp [loadLoop]
  | cons inf rest ih =>
    rw [loadLoop]
    cases hf : findOutput files op inf <;> simp [hf, List.filter_cons, ih]

theorem sortedInputFiles_names_sorted (files : List FileEntry) (ip : String) :
    List.Sorted (fun a b : String => pyStrLe a b = true)
      ((sortedInputFiles files ip).map (fun f => f.name)) :=
  List.pairwise_map.mpr (List.sorted_insertionSort feLe _)

/-- C8: a missing test directory and an input pattern matching no
files are both fatal (an exception escapes); otherwise loading always
succeeds, and every matched input file contributes either a loaded
test case or a skip warning, so a missing output pair is skipped while
the remaining pairs still load. -/
theorem claim_C8_discovery_errors :
    (∀ td ip op, ∃ m, load_tests_from_directory none td ip op = .error m)
    ∧ (∀ (files : List FileEntry) (td ip op : String),
        files.filter (fun f => globMatch ip.data f.name.data) = [] →
          ∃ m, load_tests_from_directory (some files) td ip op = .error m)
    ∧ (∀ (files : List FileEntry) (td ip op : String),
        files.filter (fun f => globMatch ip.data f.name.data) ≠ [] →
          ∃ cs ws, load_tests_from_directory (some files) td ip op = .ok (cs, ws)
            ∧ cs.length + ws.length
                = (files.filter (fun f => globMatch ip.data f.name.data)).length) := by
  refine ⟨?_, ?_, ?_⟩
  · intro td ip op
    exact ⟨_, rfl⟩
  · intro files td ip op h
    refine ⟨"No input files found matching pattern \x27" ++ ip ++ "\x27 in " ++ td, ?_⟩
    simp [load_tests_from_directory, sortedInputFiles, h]
  · intro files td ip op h
    have hlen : (sortedInputFiles files ip).length
        = (files.filter (fun f => globMatch ip.data f.name.data)).length :=
      List.length_insertionSort feLe _
    have hne : ¬ (sortedInputFiles files ip).isEmpty := by
      rw [List.isEmpty_iff]
      intro hc
      apply h
      rw [← List.length_eq_zero, ← hlen, hc]
      rfl
    refine ⟨(loadLoop files op (sortedInputFiles files ip)).1,
            (loadLoop files op (sortedInputFiles files ip)).2, ?_, ?_⟩
    · simp [load_tests_from_directory, hne]
    · rw [loadLoop_partition]
      exact hlen

/-- C8 witness: a missing directory errors; a directory with no file
matching `*.in` errors; a directory where `a.in` pairs with `a.out`
but `c.in` has no output loads one case and warns once. -/
theorem claim_C8_discovery_errors_witness :
    (∃ m, load_tests_from_directory none "tests" "*.in" "*.out" = .error m)
    ∧ (([⟨"readme", "x"⟩] : List FileEntry).filter
          (fun f => globMatch ("*.in").data f.name.data) = [])
    ∧ (∃ m, load_tests_from_directory (some [⟨"readme", "x"⟩]) "tests" "*.in" "*.out"
          = .error m)
    ∧ (([⟨"a.in", "A"⟩, ⟨"c.in", "C"⟩, ⟨"a.out", "AO"⟩] : List FileEntry).filter
          (fun f => globMatch ("*.in").data f.name.data) ≠ [])
    ∧ (∃ cs ws,
        load_tests_from_directory (some [⟨"a.in", "A"⟩, ⟨"c.in", "C"⟩, ⟨"a.out", "AO"⟩])
            "tests" "*.in" "*.out" = .ok (cs, ws)
        ∧ cs.length + ws.length
            = (([⟨"a.in", "A"⟩, ⟨"c.in", "C"⟩, ⟨"a.out", "AO"⟩] : List FileEntry).filter
                (fun f => globMatch ("*.in").data f.name.data)).length) :=
  ⟨claim_C8_discovery_errors.1 "tests" "*.in" "*.out",
   by decide,
   claim_C8_discovery_errors.2.1 [⟨"readme", "x"⟩] "tests" "*.in" "*.out" (by decide),
   by decide,
   claim_C8_discovery_errors.2.2 [⟨"a.in", "A"⟩, ⟨"c.in", "C"⟩, ⟨"a.out", "AO"⟩]
     "tests" "*.in" "*.out" (by decide)⟩

/-- C10: the input files are processed sorted lexicographically by
filename; that order does not depend on the filesystem enumeration
order (any permutation of the directory listing yields the same sorted
filename sequence); and the loaded test cases follow, in order, a
sublist of the sorted matched input filenames (each case named by its
file's stem). -/
theorem claim_C10_sorted_order :
    (∀ (files : List FileEntry) (ip : String),
        List.Sorted (fun a b : String => pyStrLe a b = true)
          ((sortedInputFiles files ip).map (fun f => f.name)))
    ∧ (∀ (files1 files2 : List FileEntry) (ip : String), files1.Perm files2 →
        (sortedInputFiles files1 ip).map (fun f => f.name)
          = (sortedInputFiles files2 ip).map (fun f => f.name))
    ∧ (∀ (files : List FileEntry) (td ip op : String) (cs : List TestCaseDict)
          (ws : List String),
        load_tests_from_directory (some files) td ip op = .ok (cs, ws) →
          ∃ srcs : List String,
            srcs.Sublist ((sortedInputFiles files ip).map (fun f => f.name))
            ∧ cs.map (fun c => c.name) = srcs.map (fun n => some (pathStem n))) := by
  refine ⟨sortedInputFiles_names_sorted, ?_, ?_⟩
  · intro files1 files2 ip hperm
    refine List.eq_of_perm_of_sorted ?_ (sortedInputFiles_names_sorted files1 ip)
      (sortedInputFiles_names_sorted files2 ip)
    refine List.Perm.map _ ?_
    exact (List.perm_insertionSort feLe _).trans
      ((hperm.filter _).trans (List.perm_insertionSort feLe _).symm)
  · intro files td ip op cs ws h
    have hform : load_tests_from_directory (some files) td ip op
        = if (sortedInputFiles files ip).isEmpty then
            .error ("No input files found matching pattern \x27" ++ ip ++ "\x27 in " ++ td)
          else .ok (loadLoop files op (sortedInputFiles files ip)) := rfl
    rw [hform] at h
    by_cases he : (sortedInputFiles files ip).isEmpty
    · rw [if_pos he] at h
      exact absurd h (by simp)
    · rw [if_neg he] at h
      have hcs : cs = (loadLoop files op (sortedInputFiles files ip)).1 := by
        injection h with h2
        exact (congrArg Prod.fst h2).symm
      refine ⟨((sortedInputFiles files ip).filter
          (fun f => (findOutput files op f).isSome)).map (fun f => f.name), ?_, ?_⟩
      · exact List.Sublist.map _ (List.filter_sublist _)
      · rw [hcs, loadLoop_names, List.map_map]
        rfl

/-- C10 witness: sorting makes the load order independent of the
enumeration order of `a.in` and `b.in`, and a concrete load yields
cases whose names follow the sorted matched input filenames. -/
theorem claim_C10_sorted_order_witness :
    ((sortedInputFiles [⟨"a.in", "A"⟩, ⟨"b.in", "B"⟩] "*.in").map (fun f => f.name)
        = (sortedInputFiles [⟨"b.in", "B"⟩, ⟨"a.in", "A"⟩] "*.in").map (fun f => f.name))
    ∧ (∃ srcs : List String,
        srcs.Sublist ((sortedInputFiles [⟨"a.in", "A"⟩, ⟨"c.in", "C"⟩, ⟨"a.out", "AO"⟩]
            "*.in").map (fun f => f.name))
        ∧ ([({ input := some "A", expected_output := some "AO", name := some "a" } :
              TestCaseDict)]).map (fun c => c.name)
            = srcs.map (fun n => some (pathStem n))) :=
  ⟨claim_C10_sorted_order.2.1 [⟨"a.in", "A"⟩, ⟨"b.in", "B"⟩] [⟨"b.in", "B"⟩, ⟨"a.in", "A"⟩]
      "*.in" (by decide),
   claim_C10_sorted_order.2.2 [⟨"a.in", "A"⟩, ⟨"c.in", "C"⟩, ⟨"a.out", "AO"⟩] "tests"
      "*.in" "*.out"
      [{ input := some "A", expected_output := some "AO", name := some "a" }]
      ["Warning: No matching output file found for c.in, skipping..."] (by rfl)⟩

end Grader
